import Mathlib

/-!
Shallow embedding of `src/main.py` (class `IMATSlotMonitor`), the IMAT slot
monitor.  Status values are modelled as the raw strings the Python code uses
("red", "yellow", "green", "unknown", plus whatever else the attribute rule
happens to return).  HTML documents are modelled as already-parsed trees: a
`Soup` for the status extractor (elements with classes, id, style, attributes
and text, plus the flattened page text returned by `get_text()`), and a `Page`
for the session manager (forms, selects, links).  The parse step of
BeautifulSoup itself is not modelled; functions that receive markup take both
the raw string (for the truthiness checks the code performs on it) and its
parse.  Network traffic is modelled as a trace (`Net`) of prerecorded events,
one per HTTP request, each either a response or a raised transport exception;
monitor state is threaded explicitly, and a ghost `log` field records the URL
of every request issued, in order.
-/

/-- Python's substring test `needle in hay` on lists of characters:
true iff `needle` occurs contiguously in `hay`. -/
def strContainsAux (needle : List Char) : List Char → Bool
  | [] => needle.isEmpty
  | c :: rest => needle.isPrefixOf (c :: rest) || strContainsAux needle rest

/-- Python's substring test `needle in hay` on strings. -/
def strContains (hay needle : String) : Bool :=
  strContainsAux needle.toList hay.toList

/-- ASCII lower-casing of one character (what Python's `str.lower()` does on
the ASCII input this code handles). -/
def asciiLowerChar (c : Char) : Char :=
  if 'A' ≤ c ∧ c ≤ 'Z' then Char.ofNat (c.toNat + 32) else c

/-- ASCII upper-casing of one character. -/
def asciiUpperChar (c : Char) : Char :=
  if 'a' ≤ c ∧ c ≤ 'z' then Char.ofNat (c.toNat - 32) else c

/-- Python `s.lower()` (ASCII). -/
def strLower (s : String) : String := String.mk (s.data.map asciiLowerChar)

/-- Python `s.upper()` (ASCII). -/
def strUpper (s : String) : String := String.mk (s.data.map asciiUpperChar)

/-- Python `s.title()` on the single-word city names used here: capitalize
the first character. -/
def strCapitalize (s : String) : String :=
  match s.data with
  | [] => String.mk []
  | c :: rest => String.mk (asciiUpperChar c :: rest)

/-- The serialized class attribute: class tokens joined by spaces (what the
`[class*=...]` selector is matched against). -/
def joinClasses : List String → String
  | [] => ""
  | [c] => c
  | c :: rest => c ++ " " ++ joinClasses rest

/-- Python `u.split('/')` on character lists, accumulator-based. -/
def splitSlashAux : List Char → List Char → List (List Char)
  | [], acc => [acc.reverse]
  | c :: rest, acc =>
    if c = '/' then acc.reverse :: splitSlashAux rest []
    else splitSlashAux rest (c :: acc)

/-- Python `'/'.join(parts)`. -/
def joinSlash : List String → String
  | [] => ""
  | [s] => s
  | s :: rest => s ++ "/" ++ joinSlash rest

/-!  ## Change detector (`check_for_changes`, src/main.py lines 477-492)  -/

/-- One qualifying change, as built by `check_for_changes`
(the dict with keys city / previous / current). -/
structure Transition where
  city : String
  previous : String
  current : String
deriving DecidableEq, Repr

/-- Python `dict.get(key, dflt)` over an association list.  Snapshots are
Python dicts, so their key lists are duplicate-free; under that invariant
first-match lookup agrees with dict lookup. -/
def dictGet : List (String × String) → String → String → String
  | [], _, dflt => dflt
  | p :: rest, key, dflt => if p.1 = key then p.2 else dictGet rest key dflt

/-- The per-entry body of the loop in `check_for_changes` (lines 481-490):
`previous_color = self.previous_state.get(city, 'unknown')`, and the entry
is appended iff `previous_color == 'red'` and the current value is
`'yellow'` or `'green'`. -/
def transition_of (previous_state : List (String × String))
    (p : String × String) : Option Transition :=
  let previous_color := dictGet previous_state p.1 "unknown"
  if previous_color = "red" ∧ (p.2 = "yellow" ∨ p.2 = "green") then
    some ⟨p.1, previous_color, p.2⟩
  else none

/-- `check_for_changes(current_status)` (lines 477-492): iterate over the
entries of the current snapshot, collecting the qualifying transitions. -/
def check_for_changes (previous_state current_status : List (String × String)) :
    List Transition :=
  current_status.filterMap (transition_of previous_state)

/-!  ## Status extractor (`analyze_slot_status` / `detect_city_status` /
`extract_status_from_element`, src/main.py lines 385-475)  -/

/-- An HTML element as the extractor sees it: its class token list
(`element.get('class', [])`), its id and inline style attributes, the list of
all further attributes as name/value string pairs in document order
(`element.attrs.items()`), and its flattened visible text. -/
structure Element where
  classes : List String
  id : String
  style : String
  attrs : List (String × String)
  text : String
deriving DecidableEq, Repr

/-- A parsed document for the extractor: all elements in document order and
the flattened page text (`soup.get_text()`). -/
structure Soup where
  elements : List Element
  text : String
deriving DecidableEq, Repr

/-- The class-name loop of `extract_status_from_element` (lines 448-457):
the first class token containing a colour word decides, with priority
red, then green, then yellow inside that token. -/
def class_list_color : List String → Option String
  | [] => none
  | class_name :: rest =>
    let class_lower := strLower class_name
    if strContains class_lower "red" || strContains class_lower "green" ||
        strContains class_lower "yellow" then
      if strContains class_lower "red" then some "red"
      else if strContains class_lower "green" then some "green"
      else some "yellow"
    else class_list_color rest

/-- The style-attribute check of `extract_status_from_element`
(lines 459-467); an empty style string is falsy and skipped. -/
def style_color (style : String) : Option String :=
  if style = "" then none
  else
    let s := strLower style
    if strContains s "red" || strContains s "#ff0000" ||
        strContains s "rgb(255,0,0)" then some "red"
    else if strContains s "green" || strContains s "#00ff00" ||
        strContains s "rgb(0,255,0)" then some "green"
    else if strContains s "yellow" || strContains s "#ffff00" ||
        strContains s "rgb(255,255,0)" then some "yellow"
    else none

/-- The attribute loop of `extract_status_from_element` (lines 469-473):
for the first attribute whose name contains "status" or "color" and whose
value contains a colour word, the code returns `str(attr_value).lower()` -
the whole lowercased attribute value, not the matched colour word. -/
def attr_color : List (String × String) → Option String
  | [] => none
  | a :: rest =>
    if (strContains (strLower a.1) "status" || strContains (strLower a.1) "color") &&
        (strContains (strLower a.2) "red" || strContains (strLower a.2) "green" ||
         strContains (strLower a.2) "yellow") then
      some (strLower a.2)
    else attr_color rest

/-- `extract_status_from_element(element)` (lines 445-475): class tokens,
then inline style, then status/color attributes; `None` if nothing matches. -/
def extract_status_from_element (element : Element) : Option String :=
  match class_list_color element.classes with
  | some status => some status
  | none =>
    match style_color element.style with
    | some status => some status
    | none => attr_color element.attrs

/-- The element lists produced by the four selector patterns of
`detect_city_status` (lines 410-415), in order:
`*[class*='city']`, `*[id*='city']`, `*:contains('City')`,
`*:contains('CITY')`.  The class pattern is matched against the serialized
(space-joined) class attribute; the `:contains` patterns (supported by the
soupsieve versions this code targets) match elements whose text contains the
title-case resp. upper-case city name. -/
def city_pattern_elements (soup : Soup) (city : String) : List (List Element) :=
  [ soup.elements.filter (fun e => strContains (joinClasses e.classes) city),
    soup.elements.filter (fun e => strContains e.id city),
    soup.elements.filter (fun e => strContains e.text (strCapitalize city)),
    soup.elements.filter (fun e => strContains e.text (strUpper city)) ]

/-- The inner loop of `detect_city_status` method 1 (lines 419-424): the
first element whose `extract_status_from_element` is truthy decides. -/
def scan_elements : List Element → Option String
  | [] => none
  | e :: rest =>
    match extract_status_from_element e with
    | some status => some status
    | none => scan_elements rest

/-- The outer pattern loop of `detect_city_status` method 1 (lines 417-426):
patterns are tried in order, the first yielding a status wins. -/
def first_structural : List (List Element) → Option String
  | [] => none
  | es :: rest =>
    match scan_elements es with
    | some status => some status
    | none => first_structural rest

/-- `detect_city_status(soup, city)` (lines 407-443).  Method 1: structural
selector patterns.  Method 2 (lines 429-441): if the lowercased page text
(`text_content = soup.get_text().lower()`) contains the city name, the
status keywords are checked in dict insertion order
available/limited/full/closed.  Otherwise `'unknown'`. -/
def detect_city_status (soup : Soup) (city : String) : String :=
  match first_structural (city_pattern_elements soup city) with
  | some status => status
  | none =>
    if strContains (strLower soup.text) city then
      if strContains (strLower soup.text) "available" then "green"
      else if strContains (strLower soup.text) "limited" then "yellow"
      else if strContains (strLower soup.text) "full" then "red"
      else if strContains (strLower soup.text) "closed" then "red"
      else "unknown"
    else "unknown"

/-- `analyze_slot_status(html_content)` (lines 385-405).  A falsy
(empty) markup string short-circuits to the empty dict; otherwise one entry
per configured city, in configuration order.  The `soup` argument stands for
`BeautifulSoup(html_content, 'html.parser')`, which never raises. -/
def analyze_slot_status (cities : List String) (html_content : String)
    (soup : Soup) : List (String × String) :=
  if html_content = "" then []
  else cities.map (fun city => (city, detect_city_status soup city))

/-!  ## Session manager (src/main.py lines 112-383)  -/

/-- An HTML form as `login_to_system` / `select_country` inspect it: its id
and action attributes.  (Hidden inputs and the method attribute only feed the
POST body, which the network-trace model abstracts away.) -/
structure HtmlForm where
  id : Option String
  action : Option String
deriving DecidableEq, Repr

/-- An option inside a select control; its value only feeds the POST body. -/
structure HtmlOption where
  text : String
  value : Option String
deriving DecidableEq, Repr

/-- A select control: its name attribute, its options, and its enclosing
form (`find_parent('form')`). -/
structure HtmlSelect where
  name : Option String
  options : List HtmlOption
  parentForm : Option HtmlForm
deriving DecidableEq, Repr

/-- An anchor element: its href attribute and its visible text. -/
structure HtmlLink where
  href : Option String
  text : String
deriving DecidableEq, Repr

/-- A parsed document for the session manager. -/
structure Page where
  forms : List HtmlForm
  selects : List HtmlSelect
  links : List HtmlLink
deriving DecidableEq, Repr

/-- An HTTP response: final URL after redirects (`response.url`), status
code, body text (`response.text`) and the parse of that body. -/
structure Response where
  status_code : Nat
  url : String
  text : String
  page : Page
deriving DecidableEq, Repr

/-- One prerecorded network event: either a delivered response or a raised
transport exception (`requests.exceptions.RequestException`). -/
inductive Fetch where
  | ok (r : Response)
  | exn
deriving DecidableEq, Repr

/-- The network trace: events consumed one per HTTP request, in order.
An exhausted trace behaves like a transport exception. -/
abbrev Net : Type := List Fetch

/-- The mutable fields of `IMATSlotMonitor` that the session code touches,
plus a ghost `log` recording the URL of every request issued. -/
structure MonitorState where
  imat_url : String
  username : Option String
  password : Option String
  is_logged_in : Bool
  country_selected : Bool
  session_initialized : Bool
  slot_booking_url : Option String
  previous_state : List (String × String)
  request_counter : Nat
  log : List String
deriving DecidableEq, Repr

/-- One HTTP request (`self.session.get` / `self.session.post`): consume the
next network event; record the requested URL in the ghost log. -/
def httpReq (url : String) (st : MonitorState) (net : Net) :
    Option Response × MonitorState × Net :=
  let st1 := { st with log := st.log ++ [url] }
  match net with
  | [] => (none, st1, [])
  | Fetch.ok r :: rest => (some r, st1, rest)
  | Fetch.exn :: rest => (none, st1, rest)

/-- The response component of the next network event (`none` models a
raised transport exception, also on an exhausted trace). -/
def httpResult : Net → Option Response
  | [] => none
  | Fetch.ok r :: _ => some r
  | Fetch.exn :: _ => none

/-- `'/'.join(self.imat_url.split('/')[:3])` (e.g. lines 134, 188). -/
def base_url_of (u : String) : String :=
  joinSlash (((splitSlashAux u.data []).take 3).map String.mk)

/-- The URL absolutization `if not action.startswith('http'): action =
base_url + action` used throughout the session code. -/
def absolutize (imat : String) (a : String) : String :=
  if "http".data.isPrefixOf a.data then a else base_url_of imat ++ a

/-- The login-form lookup of `login_to_system` (line 126):
`soup.find('form', {'id': 'loginForm'}) or soup.find('form',
action=lambda x: x and 'login' in x.lower())`. -/
def findLoginForm (p : Page) : Option HtmlForm :=
  match p.forms.find? (fun f => decide (f.id = some "loginForm")) with
  | some f => some f
  | none =>
    p.forms.find? (fun f =>
      match f.action with
      | some a => !(a = "") && strContains (strLower a) "login"
      | none => false)

/-- The select lookup of `select_country` (line 179): a select control whose
name attribute is truthy and contains "country". -/
def findCountrySelect (p : Page) : Option HtmlSelect :=
  p.selects.find? (fun s =>
    match s.name with
    | some n => !(n = "") && strContains (strLower n) "country"
    | none => false)

/-- The option lookup of `select_country` (line 192):
`country_select.find('option', string=re.compile('India', re.I))`. -/
def findIndiaOption (s : HtmlSelect) : Option HtmlOption :=
  s.options.find? (fun o => strContains (strLower o.text) "india")

/-- `soup.find_all('a', string=re.compile('India', re.I))` (line 212). -/
def indiaLinks (p : Page) : List HtmlLink :=
  p.links.filter (fun l => strContains (strLower l.text) "india")

/-- `login_to_system` (lines 112-167).  Falsy credentials: proceed without
login.  A transport exception in the GET or the POST is caught and returns
False.  A found form with a 200 POST response succeeds iff the response URL
contains "dashboard" or the body contains "welcome"; a non-200 POST response
falls through to the final `return True`.  No form found: `return True`. -/
def login_to_system (st : MonitorState) (net : Net) :
    Bool × MonitorState × Net :=
  if st.username.getD "" = "" ∨ st.password.getD "" = "" then (true, st, net)
  else
    match httpReq st.imat_url st net with
    | (none, st1, net1) => (false, st1, net1)
    | (some resp, st1, net1) =>
      match findLoginForm resp.page with
      | none => (true, st1, net1)
      | some form =>
        match httpReq (absolutize st1.imat_url (form.action.getD "")) st1 net1 with
        | (none, st2, net2) => (false, st2, net2)
        | (some login_response, st2, net2) =>
          if login_response.status_code = 200 then
            if strContains (strLower login_response.url) "dashboard" ||
                strContains (strLower login_response.text) "welcome" then
              (true, { st2 with is_logged_in := true }, net2)
            else (false, st2, net2)
          else (true, st2, net2)

/-- The India-link loop of `select_country` method 2 (lines 212-224): for
each matching link with a truthy href, GET it; a 200 marks the country
selected and returns True; a transport exception is caught by the
function-level handler, which also returns True. -/
def select_country_links : List HtmlLink → MonitorState → Net →
    Bool × MonitorState × Net
  | [], st, net => (true, st, net)
  | l :: rest, st, net =>
    match l.href with
    | none => select_country_links rest st net
    | some h =>
      if h = "" then select_country_links rest st net
      else
        match httpReq (absolutize st.imat_url h) st net with
        | (none, st1, net1) => (true, st1, net1)
        | (some r, st1, net1) =>
          if r.status_code = 200 then
            (true, { st1 with country_selected := true }, net1)
          else select_country_links rest st1 net1

/-- `select_country` (lines 169-229).  Every exception is caught by the
function-level handler and the function returns True (line 229's
`return True  # Continue even if no country selection needed`); a dropdown
whose POST answers 200 marks the country selected; any other outcome falls
through to the India-link loop. -/
def select_country (st : MonitorState) (net : Net) :
    Bool × MonitorState × Net :=
  match httpReq st.imat_url st net with
  | (none, st1, net1) => (true, st1, net1)
  | (some resp, st1, net1) =>
    match findCountrySelect resp.page with
    | some country_select =>
      match country_select.parentForm with
      | some form =>
        match findIndiaOption country_select with
        | some _ =>
          match httpReq (absolutize st1.imat_url (form.action.getD "")) st1 net1 with
          | (none, st2, net2) => (true, st2, net2)
          | (some country_response, st2, net2) =>
            if country_response.status_code = 200 then
              (true, { st2 with country_selected := true }, net2)
            else select_country_links (indiaLinks resp.page) st2 net2
        | none => select_country_links (indiaLinks resp.page) st1 net1
      | none => select_country_links (indiaLinks resp.page) st1 net1
    | none => select_country_links (indiaLinks resp.page) st1 net1

/-- The keyword list of `navigate_to_slot_page` (line 240). -/
def slot_keywords : List String :=
  ["slot", "booking", "appointment", "schedule", "exam center"]

/-- `soup.find_all('a', href=True, string=re.compile(keyword, re.I))`,
falling back to `soup.find_all('a', href=re.compile(keyword, re.I))` when the
first list is empty (lines 244-246). -/
def nav_links_for_keyword (p : Page) (kw : String) : List HtmlLink :=
  let links := p.links.filter (fun l =>
    l.href.isSome && strContains (strLower l.text) kw)
  if links.isEmpty then
    p.links.filter (fun l =>
      match l.href with
      | some h => strContains (strLower h) kw
      | none => false)
  else links

/-- Outcome of the link loop of `navigate_to_slot_page`: a reachable link
was adopted, no link matched, or a transport exception was raised (caught at
function level, where it yields the entry URL). -/
inductive NavOutcome where
  | found (href : String)
  | notFound
  | raised
deriving DecidableEq, Repr

/-- The inner link loop of `navigate_to_slot_page` (lines 248-259): the
first link with a truthy href whose GET answers 200 is adopted. -/
def nav_try_links : List HtmlLink → MonitorState → Net →
    NavOutcome × MonitorState × Net
  | [], st, net => (NavOutcome.notFound, st, net)
  | l :: rest, st, net =>
    match l.href with
    | none => nav_try_links rest st net
    | some h =>
      if h = "" then nav_try_links rest st net
      else
        match httpReq (absolutize st.imat_url h) st net with
        | (none, st1, net1) => (NavOutcome.raised, st1, net1)
        | (some r, st1, net1) =>
          if r.status_code = 200 then (NavOutcome.found (absolutize st.imat_url h), st1, net1)
          else nav_try_links rest st1 net1

/-- The keyword loop of `navigate_to_slot_page` (lines 242-259). -/
def nav_try_keywords (p : Page) : List String → MonitorState → Net →
    NavOutcome × MonitorState × Net
  | [], st, net => (NavOutcome.notFound, st, net)
  | kw :: rest, st, net =>
    match nav_try_links (nav_links_for_keyword p kw) st net with
    | (NavOutcome.found h, st1, net1) => (NavOutcome.found h, st1, net1)
    | (NavOutcome.raised, st1, net1) => (NavOutcome.raised, st1, net1)
    | (NavOutcome.notFound, st1, net1) => nav_try_keywords p rest st1 net1

/-- `navigate_to_slot_page` (lines 231-266).  A found slot page is stored in
`slot_booking_url` and returned; otherwise (including any caught exception)
the entry URL is returned. -/
def navigate_to_slot_page (st : MonitorState) (net : Net) :
    String × MonitorState × Net :=
  match httpReq st.imat_url st net with
  | (none, st1, net1) => (st1.imat_url, st1, net1)
  | (some resp, st1, net1) =>
    match nav_try_keywords resp.page slot_keywords st1 net1 with
    | (NavOutcome.found h, st2, net2) =>
      (h, { st2 with slot_booking_url := some h }, net2)
    | (NavOutcome.raised, st2, net2) => (st2.imat_url, st2, net2)
    | (NavOutcome.notFound, st2, net2) => (st2.imat_url, st2, net2)

/-- `initialize_session` (lines 268-290): login, then country selection,
then navigation; a False from a sub-step returns False, otherwise
`slot_booking_url` is set to the navigation result and
`session_initialized` to true. -/
def initialize_session (st : MonitorState) (net : Net) :
    Bool × MonitorState × Net :=
  match login_to_system st net with
  | (false, st1, net1) => (false, st1, net1)
  | (true, st1, net1) =>
    match select_country st1 net1 with
    | (false, st2, net2) => (false, st2, net2)
    | (true, st2, net2) =>
      match navigate_to_slot_page st2 net2 with
      | (url, st3, net3) =>
        (true, { st3 with slot_booking_url := some url,
                          session_initialized := true }, net3)

/-- The session-expiry test on a response URL (lines 300-302 and 347-349):
the lowercased final URL contains "login", "signin" or "country". -/
def hasExpiryIndicator (url : String) : Bool :=
  strContains (strLower url) "login" || strContains (strLower url) "signin" ||
    strContains (strLower url) "country"

/-- `maintain_session` (lines 292-311): GET the current target page; an
expiry indicator in the final URL triggers `initialize_session`; a transport
exception returns False. -/
def maintain_session (st : MonitorState) (net : Net) :
    Bool × MonitorState × Net :=
  match httpReq (st.slot_booking_url.getD st.imat_url) st net with
  | (none, st1, net1) => (false, st1, net1)
  | (some r, st1, net1) =>
    if hasExpiryIndicator r.url then initialize_session st1 net1
    else (true, st1, net1)

/-- The `except requests.exceptions.RequestException` handler of
`get_page_content` (lines 363-379): one full recovery cycle -
`initialize_session`, delay, and a retried GET whose `raise_for_status`
failure or transport exception yields None. -/
def get_page_recovery (st : MonitorState) (net : Net) :
    Option String × MonitorState × Net :=
  match initialize_session st net with
  | (false, st1, net1) => (none, st1, net1)
  | (true, st1, net1) =>
    match httpReq (st1.slot_booking_url.getD st1.imat_url) st1 net1 with
    | (none, st2, net2) => (none, st2, net2)
    | (some r, st2, net2) =>
      if 400 ≤ r.status_code then (none, st2, net2)
      else (some r.text, st2, net2)

/-- The main GET of `get_page_content` (lines 331-361): GET the target page
(`self.slot_booking_url or self.imat_url`); `raise_for_status` failures and
transport exceptions fall to the recovery handler; an expiry indicator in
the final URL triggers one `initialize_session` (a False from it returns
None) followed by a retried GET of the recomputed target URL, whose body is
returned without any further URL check. -/
def get_page_main (st : MonitorState) (net : Net) :
    Option String × MonitorState × Net :=
  match httpReq (st.slot_booking_url.getD st.imat_url) st net with
  | (none, st1, net1) => get_page_recovery st1 net1
  | (some r, st1, net1) =>
    if 400 ≤ r.status_code then get_page_recovery st1 net1
    else if hasExpiryIndicator r.url then
      match initialize_session st1 net1 with
      | (false, st2, net2) => (none, st2, net2)
      | (true, st2, net2) =>
        match httpReq (st2.slot_booking_url.getD st2.imat_url) st2 net2 with
        | (none, st3, net3) => get_page_recovery st3 net3
        | (some r2, st3, net3) =>
          if 400 ≤ r2.status_code then get_page_recovery st3 net3
          else (some r2.text, st3, net3)
    else (some r.text, st1, net1)

/-- The session-maintenance step of `get_page_content` (lines 325-328):
every 5th request runs `maintain_session`; a False returns None. -/
def get_page_after_init (st : MonitorState) (net : Net) :
    Option String × MonitorState × Net :=
  if st.request_counter % 5 = 0 then
    match maintain_session st net with
    | (false, st1, net1) => (none, st1, net1)
    | (true, st1, net1) => get_page_main st1 net1
  else get_page_main st net

/-- `get_page_content` (lines 313-383): increment the request counter; run
`initialize_session` first if not yet initialized (a False returns None);
then the maintenance step and the main GET. -/
def get_page_content (st : MonitorState) (net : Net) :
    Option String × MonitorState × Net :=
  let st0 := { st with request_counter := st.request_counter + 1 }
  if st0.session_initialized = true then get_page_after_init st0 net
  else
    match initialize_session st0 net with
    | (false, st1, net1) => (none, st1, net1)
    | (true, st1, net1) => get_page_after_init st1 net1

/-- The state of `st` after `get_page_content` has bumped the request
counter and issued (and logged) the first GET of the target page. -/
def after_first_get (st : MonitorState) : MonitorState :=
  { st with request_counter := st.request_counter + 1,
            log := st.log ++ [st.slot_booking_url.getD st.imat_url] }

/-!  ## Monitor loop (`run_monitor`, src/main.py lines 512-588)  -/

/-- The failure accounting of one cycle of `run_monitor` (lines 534-563):
a successful fetch+parse resets `consecutive_failures` to 0; a failure
increments it, and on reaching 3 a failure alert is dispatched and the
counter reset to 0.  Returns the new counter and whether the failure alert
was sent this cycle. -/
def monitor_failure_step (consecutive_failures : Nat) (fetch_ok : Bool) :
    Nat × Bool :=
  if fetch_ok then (0, false)
  else
    let cf := consecutive_failures + 1
    if 3 ≤ cf then (0, true) else (cf, false)

/-- Iterated failure accounting over a list of cycle outcomes; returns the
final counter and the total number of failure alerts dispatched. -/
def monitor_failure_run (consecutive_failures : Nat) :
    List Bool → Nat × Nat
  | [] => (consecutive_failures, 0)
  | outcome :: rest =>
    let step := monitor_failure_step consecutive_failures outcome
    let tail := monitor_failure_run step.1 rest
    (tail.1, (if step.2 then 1 else 0) + tail.2)

/-- The interval selection of `run_monitor` (lines 566-574): 180 seconds
during business hours 9..18 inclusive, 300 seconds otherwise. -/
def select_wait_time (current_hour : Nat) : Nat :=
  if 9 ≤ current_hour ∧ current_hour ≤ 18 then 180 else 300

/-!  ## Concrete inputs used by witnesses and counterexamples  -/

/-- A parse with no elements and no text (e.g. of the empty document). -/
def blankSoup : Soup := ⟨[], ""⟩

/-- The parse of the malformed markup fragment used below: no elements
survive, only stray text. -/
def malformedSoup : Soup := ⟨[], "garbage"⟩

/-- The parse of a page with no structural status markers whose flattened
text mentions Delhi and the keyword Available. -/
def delhiSoup : Soup := ⟨[], "Delhi slots are currently Available"⟩

/-- An element carrying the city in a class token (so the structural
selector matches it) and its status in a data attribute whose value is not a
bare colour word. -/
def exElement : Element :=
  ⟨["chennai-slot"], "", "", [("data-status", "dark-red")], ""⟩

/-- A page consisting of `exElement` alone. -/
def exSoup : Soup := ⟨[exElement], ""⟩

/-- A parsed page with no forms, selects or links. -/
def pageEmpty : Page := ⟨[], [], []⟩

/-- A 200 response whose page contains nothing of interest. -/
def rPlain : Response := ⟨200, "https://site/home", "plain", pageEmpty⟩

/-- A 200 response whose final URL reveals a redirect to the login page. -/
def rLogin : Response := ⟨200, "https://site/login", "redirected", pageEmpty⟩

/-- A 200 response delivering the slot page body. -/
def rBody : Response := ⟨200, "https://site/home", "FINAL", pageEmpty⟩

/-- A 200 response whose body is returned although its final URL again
carries a login indicator. -/
def rBody2 : Response := ⟨200, "https://site/loginpage", "SNEAKY", pageEmpty⟩

/-- A login form with the id the code looks up. -/
def loginFormL : HtmlForm := ⟨some "loginForm", some "/dologin"⟩

/-- A page containing only `loginFormL`. -/
def pageWithForm : Page := ⟨[loginFormL], [], []⟩

/-- A 200 response presenting the login form. -/
def rFormPage : Response := ⟨200, "https://site", "page", pageWithForm⟩

/-- A 500 response to the credential POST. -/
def rPostFail : Response := ⟨500, "https://site/dologin", "err", pageEmpty⟩

/-- A monitor state with credentials configured and no session yet. -/
def stC3 : MonitorState :=
  ⟨"https://site", some "user", some "pass", false, false, false, none, [], 0, []⟩

/-- A trace whose first GET yields a form-free page (so login is skipped as
"no login required") and whose second request - the country-selection GET -
raises a transport exception. -/
def netC3 : Net := [Fetch.ok rPlain, Fetch.exn]

/-- A monitor state with an initialized session, no credentials, and no
discovered slot page, about to issue its first counted request. -/
def stGP : MonitorState :=
  ⟨"https://site", none, none, false, false, true, none, [], 0, []⟩

/-- The state after `get_page_content stGP` has detected the expiry redirect
and re-run `initialize_session` on the remainder of `netGP`. -/
def st2GP : MonitorState :=
  ⟨"https://site", none, none, false, false, true, some "https://site", [], 1,
    ["https://site", "https://site", "https://site"]⟩

/-- The tail of the trace consumed by the re-initialization and the retried
GET in the expiry scenario. -/
def restGP : Net := [Fetch.ok rPlain, Fetch.ok rPlain, Fetch.ok rBody]

/-- Expiry scenario: main GET redirected to login, re-initialization
succeeds, retried GET delivers the body. -/
def netGP : Net := Fetch.ok rLogin :: restGP

/-- Variant tail whose retried GET again lands on a login-looking URL. -/
def restGP2 : Net := [Fetch.ok rPlain, Fetch.ok rPlain, Fetch.ok rBody2]

/-- Variant of `netGP` whose retried GET again lands on a login-looking
URL. -/
def netGP2 : Net := Fetch.ok rLogin :: restGP2

/-!  ## Helper lemmas  -/

/-- In a snapshot with duplicate-free keys (a Python dict), a key determines
its value. -/
theorem nodup_keys_unique {l : List (String × String)}
    (h : (l.map Prod.fst).Nodup) {c v w : String}
    (hv : (c, v) ∈ l) (hw : (c, w) ∈ l) : v = w := by
  induction l with
  | nil => cases hv
  | cons a t ih =>
    rw [List.map_cons, List.nodup_cons] at h
    rcases List.mem_cons.mp hv with hv1 | hv1 <;>
      rcases List.mem_cons.mp hw with hw1 | hw1
    · rw [← hv1] at hw1
      exact (Prod.mk.injEq _ _ _ _).mp hw1.symm |>.2
    · exact absurd (List.mem_map_of_mem Prod.fst hw1)
        (by rw [← hv1] at h; exact h.1)
    · exact absurd (List.mem_map_of_mem Prod.fst hv1)
        (by rw [← hw1] at h; exact h.1)
    · exact ih h.2 hv1 hw1

/-- Under duplicate-free keys, `dictGet` returns the stored value. -/
theorem dictGet_mem {l : List (String × String)}
    (h : (l.map Prod.fst).Nodup) {c v : String}
    (hm : (c, v) ∈ l) (d : String) : dictGet l c d = v := by
  induction l with
  | nil => cases hm
  | cons a t ih =>
    rw [List.map_cons, List.nodup_cons] at h
    rcases List.mem_cons.mp hm with hm1 | hm1
    · rw [← hm1]
      simp [dictGet]
    · have hne : ¬ a.1 = c := by
        intro he
        exact h.1 (he ▸ List.mem_map_of_mem Prod.fst hm1)
      simp only [dictGet, if_neg hne]
      exact ih h.2 hm1

/-- Characterization of a successful `transition_of`. -/
theorem transition_of_some {prev : List (String × String)}
    {p : String × String} {t : Transition}
    (h : transition_of prev p = some t) :
    t.city = p.1 ∧ t.current = p.2 ∧
      dictGet prev p.1 "unknown" = "red" ∧
      (p.2 = "yellow" ∨ p.2 = "green") := by
  simp only [transition_of] at h
  split at h
  · rename_i hcond
    cases h
    exact ⟨rfl, rfl, hcond.1, hcond.2⟩
  · cases h

/-- A qualifying entry does produce its transition. -/
theorem transition_of_cond {prev : List (String × String)}
    {p : String × String}
    (h1 : dictGet prev p.1 "unknown" = "red")
    (h2 : p.2 = "yellow" ∨ p.2 = "green") :
    transition_of prev p = some ⟨p.1, dictGet prev p.1 "unknown", p.2⟩ := by
  simp only [transition_of]
  rw [if_pos ⟨h1, h2⟩]

/-- Claim C1: for every pair of snapshots and every category present in the
current one (snapshots being dicts, their key lists are duplicate-free),
`check_for_changes` yields a transition for that category iff the previous
value (defaulting to "unknown" when absent, as on a first observation) is
"red" and the current value is "yellow" or "green"; and the diff of any
snapshot against itself is empty. -/
theorem check_for_changes_spec :
    (∀ prev cur, (cur.map Prod.fst).Nodup →
      ∀ c v, (c, v) ∈ cur →
        ((∃ t ∈ check_for_changes prev cur, t.city = c) ↔
          (dictGet prev c "unknown" = "red" ∧ (v = "yellow" ∨ v = "green"))))
    ∧ (∀ S, (S.map Prod.fst).Nodup → check_for_changes S S = []) := by
  constructor
  · intro prev cur hnd c v hm
    constructor
    · rintro ⟨t, ht, hc⟩
      obtain ⟨p, hp, hsome⟩ := List.mem_filterMap.mp ht
      obtain ⟨h1, h2, h3, h4⟩ := transition_of_some hsome
      rw [hc] at h1
      have hp' : (c, p.2) ∈ cur := by
        rw [h1]
        exact (Prod.mk.eta (p := p)) ▸ hp
      have hv : p.2 = v := nodup_keys_unique hnd hp' hm
      rw [← h1] at h3
      rw [hv] at h4
      exact ⟨h3, h4⟩
    · rintro ⟨h1, h2⟩
      have hsome : transition_of prev (c, v) =
          some ⟨c, dictGet prev c "unknown", v⟩ := transition_of_cond h1 h2
      exact ⟨⟨c, dictGet prev c "unknown", v⟩,
        List.mem_filterMap.mpr ⟨(c, v), hm, hsome⟩, rfl⟩
  · intro S hnd
    rw [check_for_changes, List.filterMap_eq_nil_iff]
    intro p hp
    have hget : dictGet S p.1 "unknown" = p.2 :=
      dictGet_mem hnd ((Prod.mk.eta (p := p)) ▸ hp) "unknown"
    simp only [transition_of]
    rw [if_neg]
    rintro ⟨h1, h2 | h2⟩ <;> rw [hget, h2] at h1 <;> exact absurd h1 (by decide)

/-- Witness for C1 at concrete snapshots: chennai red to yellow qualifies,
and a snapshot diffed against itself is empty. -/
theorem check_for_changes_spec_witness :
    (∃ t ∈ check_for_changes [("chennai", "red")] [("chennai", "yellow")],
      t.city = "chennai")
    ∧ check_for_changes [("chennai", "red"), ("delhi", "green")]
        [("chennai", "red"), ("delhi", "green")] = [] :=
  ⟨(check_for_changes_spec.1 [("chennai", "red")] [("chennai", "yellow")]
      (by decide) "chennai" "yellow" (by decide)).2 ⟨by decide, by decide⟩,
    check_for_changes_spec.2 [("chennai", "red"), ("delhi", "green")]
      (by decide)⟩

/-- Counterexample to claim C2: on the empty markup string,
`analyze_slot_status` returns the empty snapshot (because of the
`if not html_content: return {}` guard), not one Unknown entry per
configured category. -/
theorem analyze_empty_not_populated :
    analyze_slot_status ["chennai", "delhi"] "" blankSoup = []
    ∧ analyze_slot_status ["chennai", "delhi"] "" blankSoup ≠
        [("chennai", "unknown"), ("delhi", "unknown")] :=
  ⟨rfl, by decide⟩

/-- Claim C2 as amended: for falsy (empty) markup `analyze_slot_status`
returns the empty snapshot; for any non-empty markup - however malformed -
it returns exactly one entry per configured category, in configuration
order, and a parse with no usable content yields "unknown" for every
category.  It never raises (the model is a total function). -/
theorem analyze_slot_status_population :
    (∀ cities html soup, html ≠ "" →
      (analyze_slot_status cities html soup).map Prod.fst = cities)
    ∧ (∀ cities soup, analyze_slot_status cities "" soup = [])
    ∧ analyze_slot_status ["chennai", "delhi"] "<garbage" malformedSoup =
        [("chennai", "unknown"), ("delhi", "unknown")] := by
  refine ⟨?_, ?_, by decide⟩
  · intro cities html soup hne
    simp only [analyze_slot_status, if_neg hne, List.map_map]
    induction cities with
    | nil => rfl
    | cons c rest ih =>
      simp only [List.map_cons]
      exact congrArg (List.cons c) ih
  · intro cities soup
    simp [analyze_slot_status]

/-- Witness for the amended C2 at a concrete non-empty markup. -/
theorem analyze_slot_status_population_witness :
    ("<garbage" ≠ "")
    ∧ (analyze_slot_status ["chennai", "delhi"] "<garbage" malformedSoup).map
        Prod.fst = ["chennai", "delhi"] :=
  ⟨by decide, analyze_slot_status_population.1 ["chennai", "delhi"] "<garbage"
    malformedSoup (by decide)⟩

/-- Claim C4: when no structural selector pattern matches but the category
name occurs in the lowercased flattened page text, `detect_city_status`
returns the colour of the first keyword - in the order available (green),
limited (yellow), full (red), closed (red) - contained in that text, and
"unknown" when none occurs. -/
theorem detect_city_status_fallback (soup : Soup) (city : String)
    (h1 : first_structural (city_pattern_elements soup city) = none)
    (h2 : strContains (strLower soup.text) city = true) :
    (strContains (strLower soup.text) "available" = true →
      detect_city_status soup city = "green")
    ∧ (strContains (strLower soup.text) "available" = false →
       strContains (strLower soup.text) "limited" = true →
      detect_city_status soup city = "yellow")
    ∧ (strContains (strLower soup.text) "available" = false →
       strContains (strLower soup.text) "limited" = false →
       strContains (strLower soup.text) "full" = true →
      detect_city_status soup city = "red")
    ∧ (strContains (strLower soup.text) "available" = false →
       strContains (strLower soup.text) "limited" = false →
       strContains (strLower soup.text) "full" = false →
       strContains (strLower soup.text) "closed" = true →
      detect_city_status soup city = "red")
    ∧ (strContains (strLower soup.text) "available" = false →
       strContains (strLower soup.text) "limited" = false →
       strContains (strLower soup.text) "full" = false →
       strContains (strLower soup.text) "closed" = false →
      detect_city_status soup city = "unknown") := by
  refine ⟨?_, ?_, ?_, ?_, ?_⟩ <;> intros <;>
    simp only [detect_city_status, h1, h2] <;> simp [*]

/-- Witness for C4: markup with no structural markers whose text is
"Delhi slots are currently Available" resolves category "delhi" to
"green". -/
theorem detect_city_status_fallback_witness :
    detect_city_status delhiSoup "delhi" = "green" :=
  (detect_city_status_fallback delhiSoup "delhi" rfl (by decide)).1 (by decide)

/-- A positive class-token match yields one of the three colour words. -/
theorem class_list_color_range {cs : List String} {s : String}
    (h : class_list_color cs = some s) :
    s = "red" ∨ s = "green" ∨ s = "yellow" := by
  induction cs with
  | nil => cases h
  | cons c rest ih =>
    simp only [class_list_color] at h
    split at h
    · split at h
      · exact Or.inl (Option.some.inj h).symm
      · split at h
        · exact Or.inr (Or.inl (Option.some.inj h).symm)
        · exact Or.inr (Or.inr (Option.some.inj h).symm)
    · exact ih h

/-- A positive style match yields one of the three colour words. -/
theorem style_color_range {style s : String}
    (h : style_color style = some s) :
    s = "red" ∨ s = "green" ∨ s = "yellow" := by
  simp only [style_color] at h
  split at h
  · cases h
  · split at h
    · exact Or.inl (Option.some.inj h).symm
    · split at h
      · exact Or.inr (Or.inl (Option.some.inj h).symm)
      · split at h
        · exact Or.inr (Or.inr (Option.some.inj h).symm)
        · cases h

/-- A positive attribute match returns the whole lowercased value of some
status/color attribute containing a colour word. -/
theorem attr_color_sound {l : List (String × String)} {s : String}
    (h : attr_color l = some s) :
    ∃ a, a ∈ l
      ∧ (strContains (strLower a.1) "status" = true ∨
         strContains (strLower a.1) "color" = true)
      ∧ (strContains (strLower a.2) "red" = true ∨
         strContains (strLower a.2) "green" = true ∨
         strContains (strLower a.2) "yellow" = true)
      ∧ s = strLower a.2 := by
  induction l with
  | nil => cases h
  | cons a rest ih =>
    simp only [attr_color] at h
    split at h
    · rename_i hcond
      rw [Bool.and_eq_true, Bool.or_eq_true, Bool.or_eq_true, Bool.or_eq_true]
        at hcond
      exact ⟨a, List.mem_cons_self a rest, hcond.1,
        hcond.2.elim (fun h1 => h1.elim Or.inl (Or.inr ∘ Or.inl))
          (Or.inr ∘ Or.inr),
        (Option.some.inj h).symm⟩
    · obtain ⟨b, hb, h1, h2, h3⟩ := ih h
      exact ⟨b, List.mem_cons_of_mem a hb, h1, h2, h3⟩

/-- A positive `extract_status_from_element` is a colour word or comes from
the attribute rule. -/
theorem extract_status_range {e : Element} {s : String}
    (h : extract_status_from_element e = some s) :
    s = "red" ∨ s = "green" ∨ s = "yellow"
    ∨ ∃ a, a ∈ e.attrs
        ∧ (strContains (strLower a.1) "status" = true ∨
           strContains (strLower a.1) "color" = true)
        ∧ (strContains (strLower a.2) "red" = true ∨
           strContains (strLower a.2) "green" = true ∨
           strContains (strLower a.2) "yellow" = true)
        ∧ s = strLower a.2 := by
  unfold extract_status_from_element at h
  cases h1 : class_list_color e.classes with
  | some v =>
    rw [h1] at h
    rcases class_list_color_range (h1.trans (congrArg some (Option.some.inj h)))
      with h2 | h2 | h2
    · exact Or.inl h2
    · exact Or.inr (Or.inl h2)
    · exact Or.inr (Or.inr (Or.inl h2))
  | none =>
    rw [h1] at h
    cases h2 : style_color e.style with
    | some v =>
      rw [h2] at h
      rcases style_color_range (h2.trans (congrArg some (Option.some.inj h)))
        with h3 | h3 | h3
      · exact Or.inl h3
      · exact Or.inr (Or.inl h3)
      · exact Or.inr (Or.inr (Or.inl h3))
    | none =>
      rw [h2] at h
      exact Or.inr (Or.inr (Or.inr (attr_color_sound h)))

/-- A positive element scan points to an element of the scanned list. -/
theorem scan_elements_sound {es : List Element} {s : String}
    (h : scan_elements es = some s) :
    ∃ e, e ∈ es ∧ extract_status_from_element e = some s := by
  induction es with
  | nil => cases h
  | cons e rest ih =>
    simp only [scan_elements] at h
    cases hx : extract_status_from_element e with
    | some v =>
      rw [hx] at h
      exact ⟨e, List.mem_cons_self e rest, hx.trans h⟩
    | none =>
      rw [hx] at h
      obtain ⟨e1, he1, hx1⟩ := ih h
      exact ⟨e1, List.mem_cons_of_mem e he1, hx1⟩

/-- A positive structural search points to one of the pattern lists. -/
theorem first_structural_sound {lists : List (List Element)} {s : String}
    (h : first_structural lists = some s) :
    ∃ es, es ∈ lists ∧ scan_elements es = some s := by
  induction lists with
  | nil => cases h
  | cons es rest ih =>
    simp only [first_structural] at h
    cases hx : scan_elements es with
    | some v =>
      rw [hx] at h
      exact ⟨es, List.mem_cons_self es rest, hx.trans h⟩
    | none =>
      rw [hx] at h
      obtain ⟨es1, he1, hx1⟩ := ih h
      exact ⟨es1, List.mem_cons_of_mem es he1, hx1⟩

/-- Every selector pattern selects only elements of the document. -/
theorem city_pattern_sub {soup : Soup} {city : String} {es : List Element}
    {e : Element} (hes : es ∈ city_pattern_elements soup city)
    (he : e ∈ es) : e ∈ soup.elements := by
  simp only [city_pattern_elements, List.mem_cons, List.not_mem_nil,
    or_false] at hes
  rcases hes with h | h | h | h <;> subst h <;>
    exact (List.mem_filter.mp he).1

/-- Claim C5 as amended: the status value `detect_city_status` stores in
the snapshot is one of the four enum strings red/yellow/green/unknown,
or it is the whole lowercased value of a status/color attribute of some
document element whose value merely contains a colour word - the
attribute-based rule returns `str(attr_value).lower()`, not the matched
colour, so values outside the enum can occur. -/
theorem status_values_range (soup : Soup) (city : String) :
    detect_city_status soup city ∈
      (["red", "yellow", "green", "unknown"] : List String)
    ∨ ∃ e, e ∈ soup.elements ∧ ∃ a, a ∈ e.attrs
        ∧ (strContains (strLower a.1) "status" = true ∨
           strContains (strLower a.1) "color" = true)
        ∧ (strContains (strLower a.2) "red" = true ∨
           strContains (strLower a.2) "green" = true ∨
           strContains (strLower a.2) "yellow" = true)
        ∧ detect_city_status soup city = strLower a.2 := by
  cases hFS : first_structural (city_pattern_elements soup city) with
  | none =>
    left
    simp only [detect_city_status, hFS]
    split
    · split <;> [skip; split] <;> [skip; skip; split] <;>
        [skip; skip; skip; split] <;> simp
    · simp
  | some status =>
    obtain ⟨es, hes, hscan⟩ := first_structural_sound hFS
    obtain ⟨e, he, hex⟩ := scan_elements_sound hscan
    have heS : e ∈ soup.elements := city_pattern_sub hes he
    have hval : detect_city_status soup city = status := by
      simp only [detect_city_status, hFS]
    rcases extract_status_range hex with h | h | h | ⟨a, ha, h1, h2, h3⟩
    · left; rw [hval, h]; simp
    · left; rw [hval, h]; simp
    · left; rw [hval, h]; simp
    · right; exact ⟨e, heS, a, ha, h1, h2, hval.trans h3⟩

/-- Counterexample to claim C5: markup whose chennai element carries
`data-status="dark-red"` produces the snapshot value "dark-red", which is
none of the four enum values. -/
theorem snapshot_value_outside_enum :
    analyze_slot_status ["chennai", "delhi"] "<div>" exSoup =
      [("chennai", "dark-red"), ("delhi", "unknown")]
    ∧ "dark-red" ∉ (["red", "yellow", "green", "unknown"] : List String) := by
  decide

/-- `httpReq` split into components: response, logged state, remaining
trace.  Rewriting with this keeps the state literal under case splits. -/
theorem httpReq_eq (url : String) (st : MonitorState) (net : Net) :
    httpReq url st net =
      (httpResult net, { st with log := st.log ++ [url] }, List.tail net) := by
  cases net with
  | nil => rfl
  | cons f rest => cases f <;> rfl

/-- The India-link loop of `select_country` reports True on every path. -/
theorem select_country_links_true (links : List HtmlLink)
    (st : MonitorState) (net : Net) :
    (select_country_links links st net).1 = true := by
  induction links generalizing st net with
  | nil => rfl
  | cons l rest ih =>
    unfold select_country_links httpReq
    repeat' split
    all_goals first | rfl | exact ih _ _

/-- `select_country` reports True on every path: its exception handler
swallows transport failures (src/main.py lines 226-229). -/
theorem select_country_true (st : MonitorState) (net : Net) :
    (select_country st net).1 = true := by
  unfold select_country httpReq
  repeat' split
  all_goals first | rfl | exact select_country_links_true _ _ _

/-- `login_to_system` never touches `session_initialized`. -/
theorem login_preserves_session_initialized (st : MonitorState) (net : Net) :
    (login_to_system st net).2.1.session_initialized =
      st.session_initialized := by
  unfold login_to_system
  split
  · rfl
  · rw [httpReq_eq]
    cases hr : httpResult net with
    | none => rfl
    | some resp =>
      dsimp only
      cases hf : findLoginForm resp.page with
      | none => rfl
      | some form =>
        dsimp only
        rw [httpReq_eq]
        cases hr2 : httpResult (List.tail net) with
        | none => rfl
        | some login_response =>
          dsimp only
          split
          · split <;> rfl
          · rfl

/-- Claim C3 as amended: country selection always reports success, so
`initialize_session` fails exactly when the login sub-step fails - in
particular it sets `session_initialized` iff login reported success - and a
transport failure in login's first HTTP call (with credentials configured)
does make login report failure.  Transport failures during country
selection and navigation are swallowed and initialization completes. -/
theorem initialize_session_abort_behavior :
    (∀ st net, (select_country st net).1 = true)
    ∧ (∀ st net, st.session_initialized = false →
        ((initialize_session st net).1 = (login_to_system st net).1
          ∧ (initialize_session st net).2.1.session_initialized =
              (initialize_session st net).1))
    ∧ (∀ st rest u p, st.username = some u → st.password = some p →
        u ≠ "" → p ≠ "" →
        (login_to_system st (Fetch.exn :: rest)).1 = false) := by
  refine ⟨select_country_true, ?_, ?_⟩
  · intro st net hsi
    rcases hL : login_to_system st net with ⟨b1, st1, net1⟩
    have hpres : st1.session_initialized = false := by
      have hx := login_preserves_session_initialized st net
      rw [hL] at hx
      exact hx.trans hsi
    cases b1 with
    | false =>
      constructor
      · simp [initialize_session, hL]
      · simp [initialize_session, hL, hpres]
    | true =>
      rcases hS : select_country st1 net1 with ⟨b2, st2, net2⟩
      have hb2 : b2 = true := by
        have hx := select_country_true st1 net1
        rw [hS] at hx
        exact hx
      subst hb2
      rcases hN : navigate_to_slot_page st2 net2 with ⟨url, st3, net3⟩
      constructor
      · simp [initialize_session, hL, hS, hN]
      · simp [initialize_session, hL, hS, hN]
  · intro st rest u p hu hp hu1 hp1
    have hcond : ¬ (st.username.getD "" = "" ∨ st.password.getD "" = "") := by
      rw [hu, hp]
      simp [hu1, hp1]
    simp [login_to_system, httpReq, if_neg hcond]

/-- Counterexample to claim C3: with credentials configured, a trace whose
country-selection GET raises a transport exception (its second event) still
lets `initialize_session` finish with success and set
`session_initialized`. -/
theorem initialize_swallows_selection_failure :
    (initialize_session stC3 netC3).1 = true
    ∧ (initialize_session stC3 netC3).2.1.session_initialized = true := by
  decide

/-- Witness for the amended C3 at concrete state and trace. -/
theorem initialize_session_abort_behavior_witness :
    ((initialize_session stC3 netC3).1 = (login_to_system stC3 netC3).1)
    ∧ (login_to_system stC3 [Fetch.exn]).1 = false :=
  ⟨(initialize_session_abort_behavior.2.1 stC3 netC3 rfl).1,
    initialize_session_abort_behavior.2.2 stC3 [] "user" "pass" rfl rfl
      (by decide) (by decide)⟩

/-- Claim C9: with credentials configured, when the first GET presents a
login form and the credential POST answers with a non-200 status, the
`if login_response.status_code == 200` block is skipped, the function falls
through to its final `return True`, and `is_logged_in` is left unchanged
(False when it started False). -/
theorem login_non200_falls_through (st : MonitorState) (r1 r2 : Response)
    (rest : Net) (f : HtmlForm)
    (hu : st.username.getD "" ≠ "") (hp : st.password.getD "" ≠ "")
    (hf : findLoginForm r1.page = some f)
    (hs : r2.status_code ≠ 200) :
    (login_to_system st (Fetch.ok r1 :: Fetch.ok r2 :: rest)).1 = true
    ∧ (login_to_system st (Fetch.ok r1 :: Fetch.ok r2 :: rest)).2.1.is_logged_in
        = st.is_logged_in
    ∧ (login_to_system st (Fetch.ok r1 :: Fetch.ok r2 :: rest)).2.2 = rest := by
  have hcond : ¬ (st.username.getD "" = "" ∨ st.password.getD "" = "") := by
    simp [hu, hp]
  simp [login_to_system, httpReq, if_neg hcond, hf, if_neg hs]

/-- Witness for C9: a concrete state with credentials, a page with a login
form, and a 500 POST response. -/
theorem login_non200_falls_through_witness :
    (login_to_system stC3 [Fetch.ok rFormPage, Fetch.ok rPostFail]).1 = true
    ∧ (login_to_system stC3
        [Fetch.ok rFormPage, Fetch.ok rPostFail]).2.1.is_logged_in = false :=
  ⟨(login_non200_falls_through stC3 rFormPage rPostFail [] loginFormL
      (by decide) (by decide) rfl (by decide)).1,
    (login_non200_falls_through stC3 rFormPage rPostFail [] loginFormL
      (by decide) (by decide) rfl (by decide)).2.1⟩

/-- Failure accounting over a run of consecutive failures: starting below
the threshold, alerts fire exactly every third failure and the counter
cycles modulo 3. -/
theorem monitor_failure_run_replicate (k : Nat) :
    ∀ c, c < 3 → monitor_failure_run c (List.replicate k false) =
      ((c + k) % 3, (c + k) / 3) := by
  induction k with
  | zero =>
    intro c hc
    simp only [List.replicate, monitor_failure_run]
    rw [Nat.add_zero, Nat.mod_eq_of_lt hc, Nat.div_eq_of_lt hc]
  | succ k ih =>
    intro c hc
    rw [List.replicate_succ]
    simp only [monitor_failure_run, monitor_failure_step, if_neg,
      Bool.false_eq_true, not_false_eq_true, ite_false]
    by_cases h2 : 3 ≤ c + 1
    · rw [if_pos h2, ih 0 (by omega)]
      have hc2 : c = 2 := by omega
      subst hc2
      rw [Prod.mk.injEq]
      constructor <;> simp <;> omega
    · rw [if_neg h2, ih (c + 1) (by omega)]
      rw [Prod.mk.injEq]
      constructor <;> simp <;> · congr 1; omega

/-- Claim C6: from a zero counter, three consecutive fetch failures send
exactly one failure alert and reset the counter on the third failure; five
consecutive failures still send only one alert (counter then 2); any
successful cycle resets the counter without an alert; in general a run of k
consecutive failures from zero sends one alert per completed group of three
and leaves the counter at k mod 3. -/
theorem monitor_failure_accounting :
    monitor_failure_run 0 [false, false, false] = (0, 1)
    ∧ monitor_failure_run 0 [false, false, false, false, false] = (2, 1)
    ∧ (∀ cf, monitor_failure_step cf true = (0, false))
    ∧ (∀ k, monitor_failure_run 0 (List.replicate k false) =
        (k % 3, k / 3)) := by
  refine ⟨by decide, by decide, fun cf => rfl, fun k => ?_⟩
  have h := monitor_failure_run_replicate k 0 (by omega)
  simpa using h

/-- Claim C8: the loop sleeps 180 seconds exactly for hours 9..18 inclusive
and 300 seconds otherwise; in particular 180 at hours 10, 9 and 18, and 300
at hour 22. -/
theorem select_wait_time_spec :
    (∀ h, (9 ≤ h ∧ h ≤ 18 → select_wait_time h = 180)
      ∧ (¬ (9 ≤ h ∧ h ≤ 18) → select_wait_time h = 300))
    ∧ select_wait_time 10 = 180 ∧ select_wait_time 22 = 300
    ∧ select_wait_time 9 = 180 ∧ select_wait_time 18 = 180 := by
  refine ⟨fun h => ⟨fun hin => ?_, fun hout => ?_⟩, rfl, rfl, rfl, rfl⟩
  · rw [select_wait_time, if_pos hin]
  · rw [select_wait_time, if_neg hout]

/-- Witness for C8 at hour 10. -/
theorem select_wait_time_spec_witness :
    (9 ≤ 10 ∧ 10 ≤ 18) ∧ select_wait_time 10 = 180 :=
  ⟨by decide, (select_wait_time_spec.1 10).1 (by decide)⟩

/-- Partial evaluation of `get_page_content` in the expiry scenario: session
already initialized, not a 5th request, main GET delivered without error but
its final URL carries an expiry indicator.  The remaining computation is
exactly one `initialize_session` followed - on success - by one retried GET
of the recomputed target URL. -/
theorem get_page_content_expiry_unfold (st : MonitorState) (r : Response)
    (rest : Net)
    (h1 : st.session_initialized = true)
    (h2 : (st.request_counter + 1) % 5 ≠ 0)
    (h3 : r.status_code < 400)
    (h4 : hasExpiryIndicator r.url = true) :
    get_page_content st (Fetch.ok r :: rest) =
      match initialize_session (after_first_get st) rest with
      | (false, st2, net2) => (none, st2, net2)
      | (true, st2, net2) =>
        match httpReq (st2.slot_booking_url.getD st2.imat_url) st2 net2 with
        | (none, st3, net3) => get_page_recovery st3 net3
        | (some r2, st3, net3) =>
          if 400 ≤ r2.status_code then get_page_recovery st3 net3
          else (some r2.text, st3, net3) := by
  unfold get_page_content
  dsimp only
  rw [if_pos h1]
  unfold get_page_after_init
  dsimp only
  rw [if_neg h2]
  unfold get_page_main
  rw [httpReq_eq]
  dsimp only [httpResult, List.tail]
  rw [if_neg (by omega : ¬ 400 ≤ r.status_code), if_pos h4]
  rfl

/-- Claim C7: in the expiry scenario, exactly one re-initialization attempt
runs before the retried GET; a failed re-initialization makes the fetch
return None; a successful one is followed by a single retried GET whose
target is the recomputed `slot_booking_url or imat_url` (visible as the one
URL appended to the request log) and whose body is returned. -/
theorem get_page_expiry_single_reinit (st st2 : MonitorState)
    (net2 : Net) (r : Response) (rest : Net)
    (h1 : st.session_initialized = true)
    (h2 : (st.request_counter + 1) % 5 ≠ 0)
    (h3 : r.status_code < 400)
    (h4 : hasExpiryIndicator r.url = true) :
    (initialize_session (after_first_get st) rest = (false, st2, net2) →
      get_page_content st (Fetch.ok r :: rest) = (none, st2, net2))
    ∧ (∀ r2 net3,
        initialize_session (after_first_get st) rest = (true, st2, net2) →
        net2 = Fetch.ok r2 :: net3 → r2.status_code < 400 →
        (get_page_content st (Fetch.ok r :: rest)).1 = some r2.text
        ∧ (get_page_content st (Fetch.ok r :: rest)).2.1.log =
            st2.log ++ [st2.slot_booking_url.getD st2.imat_url]
        ∧ (get_page_content st (Fetch.ok r :: rest)).2.2 = net3) := by
  have hU := get_page_content_expiry_unfold st r rest h1 h2 h3 h4
  constructor
  · intro hinit
    rw [hU, hinit]
  · intro r2 net3 hinit hnet hr2
    rw [hU, hinit, hnet]
    dsimp only
    rw [httpReq_eq]
    dsimp only [httpResult, List.tail]
    rw [if_neg (by omega : ¬ 400 ≤ r2.status_code)]
    exact ⟨rfl, rfl, rfl⟩

/-- Witness for C7: the concrete expiry scenario delivers the retried GET's
body. -/
theorem get_page_expiry_single_reinit_witness :
    (get_page_content stGP netGP).1 = some "FINAL" :=
  ((get_page_expiry_single_reinit stGP st2GP [Fetch.ok rBody] rLogin restGP
      rfl (by decide) (by decide) (by decide)).2 rBody []
      (by decide) rfl (by decide)).1

/-- Claim C10: after the expiry-triggered re-initialization, the body of the
retried GET is returned even when its own final URL again carries a
login/signin/country indicator - the URL of the retried response is never
re-checked. -/
theorem get_page_no_recheck_after_reinit (st st2 : MonitorState)
    (net2 net3 : Net) (r r2 : Response) (rest : Net)
    (h1 : st.session_initialized = true)
    (h2 : (st.request_counter + 1) % 5 ≠ 0)
    (h3 : r.status_code < 400)
    (h4 : hasExpiryIndicator r.url = true)
    (h5 : initialize_session (after_first_get st) rest = (true, st2, net2))
    (h6 : net2 = Fetch.ok r2 :: net3)
    (h7 : r2.status_code < 400)
    (_h8 : hasExpiryIndicator r2.url = true) :
    (get_page_content st (Fetch.ok r :: rest)).1 = some r2.text := by
  have hU := get_page_content_expiry_unfold st r rest h1 h2 h3 h4
  rw [hU, h5, h6]
  dsimp only
  rw [httpReq_eq]
  dsimp only [httpResult, List.tail]
  rw [if_neg (by omega : ¬ 400 ≤ r2.status_code)]

/-- Witness for C10: the retried GET lands on a login-looking URL and its
body is still returned as the fetch result. -/
theorem get_page_no_recheck_after_reinit_witness :
    (get_page_content stGP netGP2).1 = some "SNEAKY" :=
  get_page_no_recheck_after_reinit stGP st2GP [Fetch.ok rBody2] [] rLogin
    rBody2 restGP2 rfl (by decide) (by decide) (by decide) (by decide) rfl
    (by decide) (by decide)
